import Mathlib

/-!
Verification of the Rerum browser-extension background broker against its
specification.  The definitions below are a shallow embedding of the
TypeScript source: `lib/sanitize.ts`, `lib/storage.ts`, the background
service worker (API client, CSRF manager, message router, cookie watcher)
and `lib/constants.ts`.  Untrusted JavaScript values are modelled by the
`JSValue` type; strings are Lean `String`s manipulated through their
underlying character lists so that every definition evaluates by kernel
reduction.
-/

set_option maxRecDepth 10000

-- ===========================================================================
-- JavaScript value model
-- ===========================================================================

/-- Model of an untrusted JavaScript value as it arrives over the message
channel (structured-clone data: primitives, arrays, plain objects). -/
inductive JSValue where
  | undefined
  | nullv
  | bool (b : Bool)
  | num (n : Int)
  | str (s : String)
  | arr (xs : List JSValue)
  | obj (fields : List (String × JSValue))

/-- Property access `d.key`: on a plain object returns the first binding of
`key` (JS object keys are unique), anything else yields `undefined`. -/
def JSValue.get : JSValue → String → JSValue
  | .obj fields, key =>
      match fields.lookup key with
      | some v => v
      | none => .undefined
  | _, _ => .undefined

/-- `!raw || typeof raw !== 'object'` is false exactly for non-null values of
JS type `object`, i.e. plain objects and arrays in the structured-clone
model (`typeof null === 'object'` but `!null` is true). -/
def JSValue.isObjectLike : JSValue → Bool
  | .obj _ => true
  | .arr _ => true
  | _ => false

-- ===========================================================================
-- String helpers (kernel-reducible, over the character list)
-- ===========================================================================

/-- JS `s.substring(0, n)` (first `n` UTF-16 units; modelled per character). -/
def jsTake (s : String) (n : Nat) : String := ⟨s.data.take n⟩

/-- JS `s.startsWith(p)` / regex `^p` on a literal prefix. -/
def strStarts (s p : String) : Bool := p.data.isPrefixOf s.data

/-- JS `s.endsWith(p)`. -/
def strEnds (s p : String) : Bool := p.data.reverse.isPrefixOf s.data.reverse

/-- String length as the length of the character list. -/
def strLen (s : String) : Nat := s.data.length

-- ===========================================================================
-- lib/sanitize.ts — stripHtml
-- ===========================================================================

/-- Drop characters up to and including the first `'>'`; `none` when no `'>'`
occurs.  This is how the regex `<[^>]*>` consumes a match: from a `'<'`,
greedily take non-`'>'` characters, then the closing `'>'` (necessarily the
first `'>'` that follows). -/
def dropThroughGt : List Char → Option (List Char)
  | [] => none
  | c :: rest => if c = '>' then some rest else dropThroughGt rest

/-- One left-to-right pass of `str.replace(/<[^>]*>/g, '')` (fuel-indexed so
that the definition is structural; `fuel ≥ length` makes it exact).  A
position matches only when a `'<'` is eventually followed by a `'>'`;
otherwise the remainder of the string contains no further match and is
emitted verbatim. -/
def stripGo : Nat → List Char → List Char
  | 0, l => l
  | _ + 1, [] => []
  | fuel + 1, c :: rest =>
      if c = '<' then
        match dropThroughGt rest with
        | some after => stripGo fuel after
        | none => c :: rest
      else c :: stripGo fuel rest

/-- `stripHtml` from `lib/sanitize.ts`: `str.replace(/<[^>]*>/g, '')`. -/
def stripHtml (s : String) : String := ⟨stripGo s.data.length s.data⟩

-- ===========================================================================
-- WHATWG URL model (platform `new URL`), restricted to scheme + host
-- ===========================================================================

/-- Result of the platform's `new URL(s)` restricted to the two components
the source reads: `protocol` (lower-cased scheme with trailing `':'`) and
`hostname`.  Per the WHATWG URL Standard, `url.hostname` of an IPv6 host is
the *bracketed* serialization (e.g. `new URL("http://[::1]/").hostname`
is `"[::1]"`, not `"::1"`). -/
structure ParsedUrl where
  protocol : String
  hostname : String
deriving Repr, DecidableEq

/-- ASCII lower-casing of a single character. -/
def lcChar (c : Char) : Char :=
  if 'A' ≤ c ∧ c ≤ 'Z' then Char.ofNat (c.toNat + 32) else c

/-- Helper for `splitScheme`: accumulate scheme characters up to `':'`. -/
def splitSchemeAux (acc : List Char) : List Char → Option (List Char × List Char)
  | [] => none
  | c :: rest =>
      if c = ':' then some (acc.reverse, rest)
      else if c.isAlphanum ∨ c = '+' ∨ c = '-' ∨ c = '.' then
        splitSchemeAux (lcChar c :: acc) rest
      else none

/-- Split off a URL scheme: leading ASCII-alpha character followed by
alphanumeric / `+` / `-` / `.` characters, terminated by `':'`.  Returns the
lower-cased scheme and the rest after the colon. -/
def splitScheme : List Char → Option (List Char × List Char)
  | [] => none
  | c :: rest =>
      if c.isAlpha then splitSchemeAux [lcChar c] rest else none

/-- Take characters until one of the authority terminators `/`, `?`, `#`. -/
def takeAuthority : List Char → List Char
  | [] => []
  | c :: rest =>
      if c = '/' ∨ c = '?' ∨ c = '#' then []
      else c :: takeAuthority rest

/-- Drop an optional `userinfo@` prefix (everything up to the last `'@'`). -/
def dropUserinfo (auth : List Char) : List Char :=
  if auth.contains '@' then (auth.reverse.takeWhile (· ≠ '@')).reverse else auth

/-- Extract the hostname from an authority component.  A bracketed host
(`[…]`) must contain a closing `']'` and is kept bracketed (WHATWG hostname
serialization); otherwise the host runs up to an optional `':port'` and is
lower-cased.  Hosts containing stray brackets or spaces are invalid. -/
def hostOfAuthority (auth : List Char) : Option (List Char) :=
  match dropUserinfo auth with
  | '[' :: rest =>
      if rest.contains ']' then
        some ('[' :: (rest.takeWhile (· ≠ ']') ++ [']']))
      else none
  | hp =>
      let host := hp.takeWhile (· ≠ ':')
      if host.isEmpty ∨ host.contains '[' ∨ host.contains ']' ∨ host.contains ' '
      then none
      else some (host.map lcChar)

/-- Model of the platform `new URL(s)` constructor restricted to scheme and
host.  The special schemes `http`/`https` require a `//authority` with a
non-empty valid host; any other scheme parses opaquely with an empty
hostname.  `none` models the constructor throwing `TypeError`. -/
def parseUrl (s : String) : Option ParsedUrl :=
  match splitScheme s.data with
  | none => none
  | some (scheme, rest) =>
      let proto : String := ⟨scheme ++ [':']⟩
      if scheme = "http".data ∨ scheme = "https".data then
        match rest with
        | '/' :: '/' :: tail =>
            match hostOfAuthority (takeAuthority tail) with
            | some host => some ⟨proto, ⟨host⟩⟩
            | none => none
        | _ => none
      else
        some ⟨proto, ""⟩

-- ===========================================================================
-- lib/sanitize.ts — isValidUrl, sanitizeHints, calculateConfidence,
-- sanitizePageData
-- ===========================================================================

/-- `isValidUrl` from `lib/sanitize.ts`: `new URL(url)` must succeed and the
protocol must be `http:` or `https:`. -/
def isValidUrl (url : String) : Bool :=
  match parseUrl url with
  | some u => u.protocol = "http:" || u.protocol = "https:"
  | none => false

/-- Confidence levels (`ProductConfidence` in `shared-types/estimate`). -/
inductive ProductConfidence where
  | high
  | medium
  | low
deriving Repr, DecidableEq

/-- `ProductHints`: optional, independently validated fields; `none` models
an absent key. -/
structure ProductHints where
  jsonLd : Option Bool := none
  name : Option String := none
  price : Option String := none
  image : Option String := none
  manufacturer : Option String := none
deriving Repr, DecidableEq

/-- `sanitizeHints` from `lib/sanitize.ts`: type-checks each field, strips
HTML from string hints and clamps their length, keeps `image` only when it
is a valid http(s) URL. -/
def sanitizeHints (raw : JSValue) : ProductHints :=
  if raw.isObjectLike then
    { jsonLd :=
        match raw.get "jsonLd" with
        | .bool b => some b
        | _ => none
      name :=
        match raw.get "name" with
        | .str s => some (jsTake (stripHtml s) 500)
        | _ => none
      price :=
        match raw.get "price" with
        | .str s => some (jsTake (stripHtml s) 100)
        | _ => none
      image :=
        match raw.get "image" with
        | .str s => if isValidUrl s then some (jsTake s 2000) else none
        | _ => none
      manufacturer :=
        match raw.get "manufacturer" with
        | .str s => some (jsTake (stripHtml s) 300)
        | _ => none }
  else {}

/-- JS truthiness of an optional string (`undefined` and `""` are falsy). -/
def strTruthy : Option String → Bool
  | some s => s ≠ ""
  | none => false

/-- `calculateConfidence` from `lib/sanitize.ts`.  The source tests JS
truthiness: `if (hints.jsonLd) … if (hints.name || hints.price) …`, so
`jsonLd: false` and empty-string hints do not count. -/
def calculateConfidence (hints : ProductHints) : ProductConfidence :=
  if hints.jsonLd = some true then .high
  else if strTruthy hints.name || strTruthy hints.price then .medium
  else .low

/-- `PageData`: the sanitized record handed to the UI. -/
structure PageData where
  url : String
  title : String
  images : List String
  hints : ProductHints
  confidence : ProductConfidence
deriving Repr, DecidableEq

/-- The regex test `/^https?:\/\//.test(s)` on the `url` field. -/
def httpUrlStart (s : String) : Bool :=
  strStarts s "http://" || strStarts s "https://"

/-- The record built on the success path of `sanitizePageData` (the
source's `url` / `title` / `images` / `hints` / `confidence` locals,
inlined): title HTML-stripped and clamped to 500, images filtered to valid
http(s) URLs, clamped to 2000 each and capped at 50, hints sanitized
separately, confidence derived from the sanitized hints. -/
def pageDataOf (raw : JSValue) (u : String) : PageData :=
  ⟨jsTake u 2000,
    (match raw.get "title" with
     | .str t => jsTake (stripHtml t) 500
     | _ => ""),
    (match raw.get "images" with
     | .arr xs =>
         (xs.filterMap fun x =>
           match x with
           | .str s => if isValidUrl s then some (jsTake s 2000) else none
           | _ => none).take 50
     | _ => []),
    sanitizeHints (raw.get "hints"),
    calculateConfidence (sanitizeHints (raw.get "hints"))⟩

/-- `sanitizePageData` from `lib/sanitize.ts`: `none` models the `null`
return (structurally invalid input); the required `url` field must be a
string passing the regex test `/^https?:\/\//`. -/
def sanitizePageData (raw : JSValue) : Option PageData :=
  if raw.isObjectLike then
    match raw.get "url" with
    | .str u => if httpUrlStart u then some (pageDataOf raw u) else none
    | _ => none
  else none

-- ===========================================================================
-- stripHtml: tag-freeness invariant
-- ===========================================================================

/-- A character list on which `/<[^>]*>/` has no match: every `'<'` is
followed by no `'>'` at all. -/
def TagFree : List Char → Prop
  | [] => True
  | c :: rest => (c = '<' → '>' ∉ rest) ∧ TagFree rest

theorem dropThroughGt_none_iff {l : List Char} :
    dropThroughGt l = none ↔ '>' ∉ l := by
  induction l with
  | nil => simp [dropThroughGt]
  | cons c rest ih =>
    by_cases hc : c = '>'
    · subst hc; simp [dropThroughGt]
    · simp [dropThroughGt, hc, ih, List.mem_cons, Ne.symm hc]

theorem dropThroughGt_length {l r : List Char} (h : dropThroughGt l = some r) :
    r.length < l.length := by
  induction l with
  | nil => simp [dropThroughGt] at h
  | cons c rest ih =>
    simp only [dropThroughGt] at h
    split at h
    · injection h with h
      subst h; simp
    · exact Nat.lt_trans (ih h) (by simp)

theorem tagFree_of_not_mem {l : List Char} (h : '>' ∉ l) : TagFree l := by
  induction l with
  | nil => trivial
  | cons c rest ih =>
    refine ⟨fun _ => fun hm => h (List.mem_cons_of_mem _ hm), ?_⟩
    exact ih fun hm => h (List.mem_cons_of_mem _ hm)

theorem stripGo_eq_self : ∀ (fuel : Nat) (l : List Char), TagFree l →
    stripGo fuel l = l
  | 0, _, _ => rfl
  | _ + 1, [], _ => rfl
  | fuel + 1, c :: rest, h => by
    rcases h with ⟨h₁, h₂⟩
    by_cases hc : c = '<'
    · have : dropThroughGt rest = none := dropThroughGt_none_iff.mpr (h₁ hc)
      simp [stripGo, hc, this]
    · simp [stripGo, hc, stripGo_eq_self fuel rest h₂]

theorem stripGo_tagFree : ∀ (fuel : Nat) (l : List Char), l.length ≤ fuel →
    TagFree (stripGo fuel l)
  | 0, l, h => by
      have : l = [] := List.eq_nil_of_length_eq_zero (Nat.le_zero.mp h)
      subst this; trivial
  | _ + 1, [], _ => trivial
  | fuel + 1, c :: rest, h => by
    have hrest : rest.length ≤ fuel := by simp at h; omega
    by_cases hc : c = '<'
    · cases hdrop : dropThroughGt rest with
      | some after =>
          have hlen : after.length ≤ fuel :=
            Nat.le_of_lt (Nat.lt_of_lt_of_le (dropThroughGt_length hdrop) hrest)
          simpa [stripGo, hc, hdrop] using stripGo_tagFree fuel after hlen
      | none =>
          have hng : '>' ∉ rest := dropThroughGt_none_iff.mp hdrop
          simp only [stripGo, hc, if_pos rfl, hdrop]
          exact ⟨fun _ => hng, tagFree_of_not_mem hng⟩
    · simp only [stripGo, if_neg hc]
      exact ⟨fun h' => absurd h' hc, stripGo_tagFree fuel rest hrest⟩

theorem tagFree_take {l : List Char} (h : TagFree l) (n : Nat) :
    TagFree (l.take n) := by
  induction l generalizing n with
  | nil => simp [List.take_nil]; trivial
  | cons c rest ih =>
    cases n with
    | zero => trivial
    | succ m =>
      rcases h with ⟨h₁, h₂⟩
      exact ⟨fun hc => fun hm => h₁ hc (List.take_subset m rest hm), ih h₂ m⟩

/-- `stripHtml` leaves a string unchanged iff-wise on already-stripped data:
the fixed-point property used below. -/
theorem stripHtml_fixed_of_tagFree {l : List Char} (h : TagFree l) :
    stripHtml ⟨l⟩ = ⟨l⟩ := by
  unfold stripHtml
  exact congrArg String.mk (stripGo_eq_self l.length l h)

theorem tagFree_stripHtml_data (s : String) : TagFree (stripHtml s).data :=
  stripGo_tagFree s.data.length s.data (Nat.le_refl _)

/-- C9 — stripHtml is idempotent: a single pass of the tag-removal rewrite
never leaves behind, nor creates, a substring that a second pass would
remove. -/
theorem C9_stripHtml_idempotent (s : String) :
    stripHtml (stripHtml s) = stripHtml s := by
  have h : TagFree (stripHtml s).data := tagFree_stripHtml_data s
  calc stripHtml (stripHtml s)
      = stripHtml ⟨(stripHtml s).data⟩ := rfl
    _ = ⟨(stripHtml s).data⟩ := stripHtml_fixed_of_tagFree h
    _ = stripHtml s := rfl

-- ===========================================================================
-- Clamping / prefix helper lemmas
-- ===========================================================================

theorem strLen_jsTake (s : String) (n : Nat) : strLen (jsTake s n) ≤ n := by
  simp only [strLen, jsTake, List.length_take]
  exact Nat.min_le_left _ _

theorem isPrefixOf_take {p l : List Char} {n : Nat}
    (h : p.isPrefixOf l = true) (hn : p.length ≤ n) :
    p.isPrefixOf (l.take n) = true := by
  rw [List.isPrefixOf_iff_prefix] at h ⊢
  obtain ⟨t, rfl⟩ := h
  rw [List.take_append_eq_append_take, List.take_of_length_le hn]
  exact ⟨_, rfl⟩

theorem httpUrlStart_jsTake {u : String} (h : httpUrlStart u = true) :
    httpUrlStart (jsTake u 2000) = true := by
  simp only [httpUrlStart, strStarts, jsTake, Bool.or_eq_true] at h ⊢
  rcases h with h | h
  · exact Or.inl (isPrefixOf_take h (by decide))
  · exact Or.inr (isPrefixOf_take h (by decide))

theorem stripHtml_fixed_jsTake (t : String) (n : Nat) :
    stripHtml (jsTake (stripHtml t) n) = jsTake (stripHtml t) n :=
  stripHtml_fixed_of_tagFree (tagFree_take (tagFree_stripHtml_data t) n)

-- ===========================================================================
-- C8 — confidence derivation
-- ===========================================================================

/-- C8 counterexample — the claim reads `'high' exactly when jsonLd is set`
and `'medium' … when name or price is present`, but `calculateConfidence`
tests JS truthiness: `jsonLd: false` is a set field yet yields `low`, and
`name: ""` is a present field yet yields `low`. -/
theorem C8_confidence_counterexample :
    ((⟨some false, none, none, none, none⟩ : ProductHints).jsonLd.isSome = true
      ∧ calculateConfidence ⟨some false, none, none, none, none⟩ = .low)
  ∧ ((⟨none, some "", none, none, none⟩ : ProductHints).name.isSome = true
      ∧ calculateConfidence ⟨none, some "", none, none, none⟩ = .low) := by
  decide

/-- C8 (amended) — for every `ProductHints` value `h`,
`calculateConfidence h` is `high` exactly when `h.jsonLd` is `true`,
`medium` exactly when `h.jsonLd` is not `true` and `h.name` or `h.price` is
a non-empty string, and `low` otherwise; `{jsonLd:true}` yields `high`,
`{name:"X"}` yields `medium`, `{}` yields `low`. -/
theorem C8_confidence_amended (h : ProductHints) :
    (calculateConfidence h = .high ↔ h.jsonLd = some true)
  ∧ (calculateConfidence h = .medium ↔
      (h.jsonLd ≠ some true ∧ (strTruthy h.name = true ∨ strTruthy h.price = true)))
  ∧ (calculateConfidence h = .low ↔
      (h.jsonLd ≠ some true ∧ strTruthy h.name = false ∧ strTruthy h.price = false))
  ∧ calculateConfidence ⟨some true, none, none, none, none⟩ = .high
  ∧ calculateConfidence ⟨none, some "X", none, none, none⟩ = .medium
  ∧ calculateConfidence {} = .low := by
  refine ⟨?_, ?_, ?_, by decide, by decide, by decide⟩ <;>
    · unfold calculateConfidence
      by_cases hj : h.jsonLd = some true <;>
        by_cases hm : (strTruthy h.name || strTruthy h.price) = true <;>
          simp_all [Bool.or_eq_true] <;>
            rcases hm with hm | hm <;> simp_all

/-- Witness for C8: the amended theorem applied at `{jsonLd:true}`. -/
theorem C8_confidence_amended_witness :
    calculateConfidence ⟨some true, none, none, none, none⟩ = .high :=
  (C8_confidence_amended ⟨some true, none, none, none, none⟩).1.mpr (by decide)

-- ===========================================================================
-- C3 — sanitizePageData totality and validity
-- ===========================================================================

theorem sanitizePageData_some_inv {v : JSValue} {pd : PageData}
    (hpd : sanitizePageData v = some pd) :
    ∃ u, v.get "url" = .str u ∧ httpUrlStart u = true ∧ pd = pageDataOf v u := by
  unfold sanitizePageData at hpd
  split at hpd
  case isTrue hv =>
    cases hurl : v.get "url" <;> rw [hurl] at hpd
    case str u =>
      dsimp only at hpd
      rw [Option.ite_none_right_eq_some, Option.some.injEq] at hpd
      exact ⟨u, rfl, hpd.1, hpd.2.symm⟩
    all_goals exact absurd hpd (by simp)
  case isFalse => exact absurd hpd (by simp)

/-- C3 — for every input value, `sanitizePageData` returns `none` when the
input is not an object or its `url` field is not a string beginning with
`http://` or `https://`; otherwise it returns a record whose `url` begins
with `http(s)://` and is clamped to 2000 characters, whose `title` is
HTML-stripped and clamped to 500, whose `images` are at most 50 valid
http(s) URLs each clamped to 2000, and whose `confidence` is derived from
the sanitized hints; it never throws (it is a total Lean function).  In
particular `{url:"https://x.com", title:"<b>Hi</b>"}` yields
`{url:"https://x.com", title:"Hi", images:[], hints:{}, confidence:"low"}`. -/
theorem C3_sanitizePageData_total_valid (v : JSValue) :
    ((v.isObjectLike = false ∨ ∀ s, v.get "url" = .str s → httpUrlStart s = false) →
      sanitizePageData v = none)
  ∧ (∀ pd, sanitizePageData v = some pd →
      httpUrlStart pd.url = true
      ∧ strLen pd.url ≤ 2000
      ∧ strLen pd.title ≤ 500
      ∧ stripHtml pd.title = pd.title
      ∧ pd.images.length ≤ 50
      ∧ (∀ u ∈ pd.images, strLen u ≤ 2000 ∧ ∃ w, isValidUrl w = true ∧ u = jsTake w 2000)
      ∧ pd.hints = sanitizeHints (v.get "hints")
      ∧ pd.confidence = calculateConfidence pd.hints)
  ∧ sanitizePageData (.obj [("url", .str "https://x.com"), ("title", .str "<b>Hi</b>")])
      = some ⟨"https://x.com", "Hi", [], {}, .low⟩ := by
  refine ⟨?_, ?_, by decide⟩
  · intro h
    unfold sanitizePageData
    rcases h with h | h
    · simp [h]
    · cases hv : v.isObjectLike
      · simp
      · simp only [hv, if_true]
        cases hurl : v.get "url" <;> simp_all
  · intro pd hpd
    obtain ⟨u, hurl, hstart, rfl⟩ := sanitizePageData_some_inv hpd
    clear hpd hurl
    unfold pageDataOf
    generalize v.get "title" = tv
    generalize v.get "images" = iv
    refine ⟨httpUrlStart_jsTake hstart, strLen_jsTake u 2000, ?_, ?_, ?_, ?_, rfl, rfl⟩
    · cases tv <;> dsimp only <;> first
        | exact strLen_jsTake _ 500
        | decide
    · cases tv <;> dsimp only <;> first
        | exact stripHtml_fixed_jsTake _ 500
        | decide
    · cases iv <;> dsimp only <;> simp [List.length_take]
    · cases iv
      case arr xs =>
        dsimp only
        intro w hw
        obtain ⟨x, -, hfx⟩ := List.mem_filterMap.mp (List.take_subset 50 _ hw)
        rcases x with _ | _ | b | n | s | ys | fs
        · exact absurd hfx (by simp)
        · exact absurd hfx (by simp)
        · exact absurd hfx (by simp)
        · exact absurd hfx (by simp)
        · dsimp only at hfx
          rw [Option.ite_none_right_eq_some, Option.some.injEq] at hfx
          obtain ⟨hvalid, hweq⟩ := hfx
          exact ⟨hweq ▸ strLen_jsTake s 2000, s, hvalid, hweq.symm⟩
        · exact absurd hfx (by simp)
        · exact absurd hfx (by simp)
      all_goals (dsimp only; simp)

/-- Witness for C3: the theorem applied at a non-object input and at the
spec's example object. -/
theorem C3_sanitizePageData_witness :
    sanitizePageData (.str "not an object") = none
  ∧ strLen (PageData.mk "https://x.com" "Hi" [] {} .low).url ≤ 2000 := by
  constructor
  · exact (C3_sanitizePageData_total_valid (.str "not an object")).1 (Or.inl (by decide))
  · exact ((C3_sanitizePageData_total_valid
      (.obj [("url", .str "https://x.com"), ("title", .str "<b>Hi</b>")])).2.1
      ⟨"https://x.com", "Hi", [], {}, .low⟩ (by decide)).2.1

-- ===========================================================================
-- lib/messaging.ts — response union (payloads reduced to the fields the
-- claims inspect)
-- ===========================================================================

/-- `ExtensionResponse` from `lib/messaging.ts`.  Payload-only fields that no
claim inspects are omitted; the `ADD_ROW_RESULT` pair of variants is one
constructor with a `success` discriminant. -/
inductive ExtensionResponse where
  | authResult (isAuthenticated : Bool)
  | documentsResult
  | documentResult
  | extractResult
  | addRowResult (success : Bool) (error : Option String) (status : Option Nat)
      (errorCode : Option String)
  | pageDataResult
  | usageResult
  | activeTabResult (tabId : Option Nat) (url : Option String)
  | logoutResult
  | error (status : Nat) (error : String) (errorCode : Option String)
deriving Repr, DecidableEq

-- ===========================================================================
-- lib/storage.ts — session storage and the document/tab cache
-- ===========================================================================

/-- The tab metadata cached per document (`Pick<EstimateTabApi, 'tab_id' |
'tab_name' | 'tab_order'>`). -/
structure TabInfo where
  tab_id : String
  tab_name : String
  tab_order : Nat
deriving Repr, DecidableEq

/-- `CachedDocumentEntry` from `lib/storage.ts`. -/
structure CachedDocumentEntry where
  tabs : List TabInfo
  cachedAt : Nat
deriving Repr, DecidableEq

/-- The `cachedDocuments` record: a JS object keyed by document uuid,
modelled as an association list with unique keys maintained by `mapSet`. -/
abbrev DocCacheMap := List (String × CachedDocumentEntry)

/-- JS property read `docs[uuid]`. -/
def mapLookup : DocCacheMap → String → Option CachedDocumentEntry
  | [], _ => none
  | (k, v) :: rest, key => if k = key then some v else mapLookup rest key

/-- JS property write `docs[uuid] = entry` (overwrite or append). -/
def mapSet : DocCacheMap → String → CachedDocumentEntry → DocCacheMap
  | [], key, v => [(key, v)]
  | (k, w) :: rest, key, v =>
      if k = key then (k, v) :: rest else (k, w) :: mapSet rest key v

/-- JS `delete docs[uuid]`. -/
def mapDelete : DocCacheMap → String → DocCacheMap
  | [], _ => []
  | (k, w) :: rest, key =>
      if k = key then mapDelete rest key else (k, w) :: mapDelete rest key

/-- `StoredAuthState` from `lib/storage.ts`. -/
structure StoredAuthState where
  isAuthenticated : Bool
  accountType : Option String
deriving Repr, DecidableEq

/-- The contents of `browser.storage.session` (`SessionStorageSchema`):
`authState` and `cachedDocuments`, each possibly unset. -/
structure SessionStore where
  authState : Option StoredAuthState
  cachedDocuments : Option DocCacheMap
deriving Repr, DecidableEq

/-- `cacheDocumentTabs` from `lib/storage.ts`: read `cachedDocuments`
(defaulting to `{}`), assign `existing[uuid] = {tabs, cachedAt: Date.now()}`,
write back.  `now` stands for `Date.now()`. -/
def cacheDocumentTabs (uuid : String) (tabs : List TabInfo) (now : Nat)
    (st : SessionStore) : SessionStore :=
  { st with
      cachedDocuments := some (mapSet (st.cachedDocuments.getD []) uuid ⟨tabs, now⟩) }

/-- `getCachedDocumentTabs` from `lib/storage.ts`: `docs?.[uuid]`. -/
def getCachedDocumentTabs (uuid : String) (st : SessionStore) :
    Option CachedDocumentEntry :=
  match st.cachedDocuments with
  | some docs => mapLookup docs uuid
  | none => none

/-- `invalidateDocumentCache` from `lib/storage.ts`: only when the key is
present (`docs && uuid in docs`) delete it and write back. -/
def invalidateDocumentCache (uuid : String) (st : SessionStore) : SessionStore :=
  match st.cachedDocuments with
  | some docs =>
      if (mapLookup docs uuid).isSome then
        { st with cachedDocuments := some (mapDelete docs uuid) }
      else st
  | none => st

theorem mapLookup_mapSet_self (m : DocCacheMap) (k : String)
    (v : CachedDocumentEntry) : mapLookup (mapSet m k v) k = some v := by
  induction m with
  | nil => simp [mapSet, mapLookup]
  | cons hd tl ih =>
    obtain ⟨k', w⟩ := hd
    by_cases hk : k' = k <;> simp [mapSet, mapLookup, hk, ih]

theorem mapLookup_mapSet_ne (m : DocCacheMap) {k k' : String} (h : k ≠ k')
    (v : CachedDocumentEntry) : mapLookup (mapSet m k v) k' = mapLookup m k' := by
  induction m with
  | nil => simp [mapSet, mapLookup, h]
  | cons hd tl ih =>
    obtain ⟨k'', w⟩ := hd
    by_cases hk : k'' = k
    · subst hk; simp [mapSet, mapLookup, h]
    · simp [mapSet, mapLookup, hk, ih]

theorem mapLookup_mapDelete_self (m : DocCacheMap) (k : String) :
    mapLookup (mapDelete m k) k = none := by
  induction m with
  | nil => simp [mapDelete, mapLookup]
  | cons hd tl ih =>
    obtain ⟨k', w⟩ := hd
    by_cases hk : k' = k <;> simp [mapDelete, mapLookup, hk, ih]

theorem mapLookup_mapDelete_ne (m : DocCacheMap) {k k' : String} (h : k ≠ k') :
    mapLookup (mapDelete m k) k' = mapLookup m k' := by
  induction m with
  | nil => simp [mapDelete, mapLookup]
  | cons hd tl ih =>
    obtain ⟨k'', w⟩ := hd
    by_cases hk : k'' = k
    · subst hk; simp [mapDelete, mapLookup, h, ih]
    · simp [mapDelete, mapLookup, hk, ih]

theorem getCached_invalidate_self (uuid : String) (st : SessionStore) :
    getCachedDocumentTabs uuid (invalidateDocumentCache uuid st) = none := by
  cases hd : st.cachedDocuments with
  | none => simp [invalidateDocumentCache, getCachedDocumentTabs, hd]
  | some docs =>
    by_cases hl : (mapLookup docs uuid).isSome = true
    · simp [invalidateDocumentCache, getCachedDocumentTabs, hd, hl,
        mapLookup_mapDelete_self]
    · have hnone : mapLookup docs uuid = none :=
        Option.not_isSome_iff_eq_none.mp hl
      simp [invalidateDocumentCache, getCachedDocumentTabs, hd, hl, hnone]

-- ===========================================================================
-- Background handlers touching the document cache (background service
-- worker, `handleFetchDocument` / `handleAddRowToDocument`)
-- ===========================================================================

/-- The outcome of the `apiPost` call a handler awaits: success, a thrown
`ApiError`, or some other thrown exception. -/
inductive PostOutcome where
  | ok
  | apiErr (status : Nat) (msg : String) (errorCode : Option String)
  | jsErr (msg : String)
deriving Repr, DecidableEq

/-- `handleFetchDocument`: after fetching the document, cache its tab
structure (`cacheDocumentTabs`) and return `DOCUMENT_RESULT`.  `tabs` is the
tab metadata of the fetched document and `now` the clock reading. -/
def handleFetchDocument (documentUuid : String) (tabs : List TabInfo) (now : Nat)
    (st : SessionStore) : ExtensionResponse × SessionStore :=
  (.documentResult, cacheDocumentTabs documentUuid tabs now st)

/-- `handleAddRowToDocument`: a thrown `ApiError` is returned as an
`ADD_ROW_RESULT` soft failure; any other exception is rethrown
(`Except.error`); on success the document's cache entry is invalidated and
`{success: true}` returned.  Storage operations are modelled as reliable
(the source wraps the invalidation in try/catch only against storage-API
failures). -/
def handleAddRowToDocument (documentUuid : String) (outcome : PostOutcome)
    (st : SessionStore) : Except String (ExtensionResponse × SessionStore) :=
  match outcome with
  | .apiErr status msg code =>
      .ok (.addRowResult false (some msg) (some status) code, st)
  | .jsErr msg => .error msg
  | .ok =>
      .ok (.addRowResult true none none none, invalidateDocumentCache documentUuid st)

-- ===========================================================================
-- C5 — cache invalidation on mutation
-- ===========================================================================

/-- C5 — `FETCH_DOCUMENT` populates the cache entry for uuid U, and every
subsequent `ADD_ROW_TO_DOCUMENT` for U whose handler returns
`{success:true}` leaves no cache entry for U: the lookup returns
`undefined` afterwards, regardless of the intervening cache state. -/
theorem C5_cache_invalidation_on_mutation (uuid : String) (tabs : List TabInfo)
    (now : Nat) (st : SessionStore) (outcome : PostOutcome) :
    getCachedDocumentTabs uuid (handleFetchDocument uuid tabs now st).2
      = some ⟨tabs, now⟩
  ∧ (∀ st' resp st'', handleAddRowToDocument uuid outcome st' = .ok (resp, st'') →
      resp = .addRowResult true none none none →
      getCachedDocumentTabs uuid st'' = none) := by
  constructor
  · simp [handleFetchDocument, cacheDocumentTabs, getCachedDocumentTabs,
      mapLookup_mapSet_self]
  · intro st' resp st'' hrun hresp
    cases outcome with
    | ok =>
        simp only [handleAddRowToDocument, Except.ok.injEq, Prod.mk.injEq] at hrun
        rw [← hrun.2]
        exact getCached_invalidate_self uuid st'
    | apiErr status msg code =>
        simp only [handleAddRowToDocument, Except.ok.injEq, Prod.mk.injEq] at hrun
        rw [← hrun.1] at hresp
        exact absurd hresp (by simp)
    | jsErr msg =>
        simp [handleAddRowToDocument] at hrun

/-- Witness for C5: a concrete fetch-then-successful-add run on an initially
empty store ends with no cache entry for the document. -/
theorem C5_cache_invalidation_witness :
    getCachedDocumentTabs "doc-1"
        (handleFetchDocument "doc-1" [⟨"t1", "Tab 1", 0⟩] 42 ⟨none, none⟩).2
      = some ⟨[⟨"t1", "Tab 1", 0⟩], 42⟩
  ∧ getCachedDocumentTabs "doc-1"
        ((handleFetchDocument "doc-1" [⟨"t1", "Tab 1", 0⟩] 42 ⟨none, none⟩).2
          |> fun st => (invalidateDocumentCache "doc-1" st)) = none := by
  constructor
  · exact (C5_cache_invalidation_on_mutation "doc-1" [⟨"t1", "Tab 1", 0⟩] 42
      ⟨none, none⟩ .ok).1
  · exact (C5_cache_invalidation_on_mutation "doc-1" [⟨"t1", "Tab 1", 0⟩] 42
      ⟨none, none⟩ .ok).2
      (handleFetchDocument "doc-1" [⟨"t1", "Tab 1", 0⟩] 42 ⟨none, none⟩).2
      (.addRowResult true none none none) _ rfl rfl

-- ===========================================================================
-- C10 — cache operations are per-document
-- ===========================================================================

/-- C10 — for distinct uuids U ≠ V and every cache state,
`cacheDocumentTabs U` and `invalidateDocumentCache U` leave the cached
entry for V unchanged. -/
theorem C10_cache_per_document (U V : String) (hUV : U ≠ V)
    (tabs : List TabInfo) (now : Nat) (st : SessionStore) :
    getCachedDocumentTabs V (cacheDocumentTabs U tabs now st)
      = getCachedDocumentTabs V st
  ∧ getCachedDocumentTabs V (invalidateDocumentCache U st)
      = getCachedDocumentTabs V st := by
  constructor
  · cases hd : st.cachedDocuments with
    | none =>
        simp [cacheDocumentTabs, getCachedDocumentTabs, hd, mapLookup,
          mapLookup_mapSet_ne _ hUV, hUV]
    | some docs =>
        simp [cacheDocumentTabs, getCachedDocumentTabs, hd,
          mapLookup_mapSet_ne _ hUV]
  · cases hd : st.cachedDocuments with
    | none => simp [invalidateDocumentCache, hd]
    | some docs =>
        by_cases hl : (mapLookup docs U).isSome = true
        · simp [invalidateDocumentCache, getCachedDocumentTabs, hd, hl,
            mapLookup_mapDelete_ne _ hUV]
        · simp [invalidateDocumentCache, hd, hl]

/-- Witness for C10: concrete distinct uuids on a store caching both. -/
theorem C10_cache_per_document_witness :
    getCachedDocumentTabs "v"
        (cacheDocumentTabs "u" [] 7
          ⟨none, some [("v", ⟨[], 1⟩)]⟩)
      = getCachedDocumentTabs "v" ⟨none, some [("v", ⟨[], 1⟩)]⟩
  ∧ getCachedDocumentTabs "v"
        (invalidateDocumentCache "u" ⟨none, some [("v", ⟨[], 1⟩)]⟩)
      = getCachedDocumentTabs "v" ⟨none, some [("v", ⟨[], 1⟩)]⟩ :=
  C10_cache_per_document "u" "v" (by decide) [] 7 ⟨none, some [("v", ⟨[], 1⟩)]⟩

-- ===========================================================================
-- HTTP client (background service worker, `apiGet` / `apiPost` / `apiPut`)
-- ===========================================================================

/-- A JSON value `response.json()` resolved to, as far as the client
inspects it.  `jsNull` is the body text `null`: property access on it
throws a `TypeError`.  Every other JSON value supports property access
(primitives box, objects and arrays look fields up), so `value e c`
carries the results of reading `body.error` and `body.errorCode`, with
`none` for `undefined` or `null` (which the `??` fallback treats alike;
fields outside the typed `{error?: string; errorCode?: string}` contract
are modelled as absent). -/
inductive JsonValue where
  | jsNull
  | value (error : Option String) (errorCode : Option String)
deriving Repr, DecidableEq

/-- The result of `response.json()`: a rejection (invalid JSON, e.g. an
empty `204` body) or a resolution to a JSON value. -/
inductive JsonBody where
  | rejects
  | resolves (v : JsonValue)
deriving Repr, DecidableEq

/-- An HTTP response as observed by the client: status, status text, and
what `response.json()` does on its body. -/
structure HttpResponse where
  status : Nat
  statusText : String
  parsed : JsonBody
deriving Repr, DecidableEq

/-- `response.ok`: status in the 2xx range. -/
def respOk (r : HttpResponse) : Bool := 200 ≤ r.status && r.status < 300

/-- The `ApiError` class: `{status, message, errorCode?}`. -/
structure ApiError where
  status : Nat
  message : String
  errorCode : Option String
deriving Repr, DecidableEq

/-- How an API-client call settles: success value (with `none` for the
empty `204` success), a thrown `ApiError`, or a raw non-`ApiError`
exception (a body-parse rejection on the success path, or the `TypeError`
from reading `body.error` when a non-2xx body parses to JSON `null`). -/
inductive ApiOutcome where
  | ok (body : Option JsonValue)
  | apiError (e : ApiError)
  | jsException
deriving Repr, DecidableEq

/-- The shared non-2xx path: `const body = await response.json().catch(()
=> ({error: response.statusText}))`, then `throw new ApiError(
response.status, body.error ?? response.statusText, body.errorCode)`.
A parse rejection is caught and replaced by `{error: statusText}`; a body
resolving to JSON `null` is *not* caught, and the subsequent `body.error`
read throws a raw `TypeError` instead of raising `ApiError`. -/
def raiseApiError (r : HttpResponse) : ApiOutcome :=
  match r.parsed with
  | .rejects => .apiError ⟨r.status, r.statusText, none⟩
  | .resolves .jsNull => .jsException
  | .resolves (.value e c) => .apiError ⟨r.status, e.getD r.statusText, c⟩

/-- `apiGet`: non-2xx runs the shared error path; a 2xx returns
`response.json()` (a parse rejection on this path is a raw exception). -/
def apiGet (r : HttpResponse) : ApiOutcome :=
  if respOk r then
    match r.parsed with
    | .resolves v => .ok (some v)
    | .rejects => .jsException
  else raiseApiError r

/-- `apiPost`: non-2xx runs the shared error path; `204` returns
`undefined` without parsing; any other 2xx returns `response.json()`. -/
def apiPost (r : HttpResponse) : ApiOutcome :=
  if respOk r then
    if r.status = 204 then .ok none
    else
      match r.parsed with
      | .resolves v => .ok (some v)
      | .rejects => .jsException
  else raiseApiError r

/-- `apiPut`: non-2xx runs the shared error path; a 2xx returns
`response.json()` — the source has no `204` short-circuit here. -/
def apiPut (r : HttpResponse) : ApiOutcome :=
  if respOk r then
    match r.parsed with
    | .resolves v => .ok (some v)
    | .rejects => .jsException
  else raiseApiError r

-- ===========================================================================
-- C4 — HTTP client error normalization
-- ===========================================================================

/-- C4 counterexample — the claim as stated fails twice.  (1) A `204 No
Content` on a PUT does not resolve to an empty success value: `apiPut` has
no 204 short-circuit, so it calls `response.json()` on the empty body, a
raw parse rejection; `apiPost` on the same response does resolve to the
empty success value.  (2) A non-2xx response whose body is the valid JSON
text `null` is not raised as an `ApiError`: `response.json()` resolves
(the `.catch` does not fire) and the `body.error` read throws a raw
`TypeError` that propagates unconverted. -/
theorem C4_http_client_counterexample :
    apiPut ⟨204, "No Content", .rejects⟩ = .jsException
  ∧ apiPut ⟨204, "No Content", .rejects⟩ ≠ .ok none
  ∧ apiPost ⟨204, "No Content", .rejects⟩ = .ok none
  ∧ apiGet ⟨500, "Internal Server Error", .resolves .jsNull⟩ = .jsException
  ∧ ∀ e, apiGet ⟨500, "Internal Server Error", .resolves .jsNull⟩
      ≠ .apiError e := by
  have hx : apiGet ⟨500, "Internal Server Error", .resolves .jsNull⟩
      = .jsException := by decide
  refine ⟨by decide, by decide, by decide, hx, fun e h => ?_⟩
  rw [hx] at h
  exact ApiOutcome.noConfusion h

/-- C4 (amended) — a non-2xx response on GET/POST/PUT whose body fails to
parse as JSON is raised as `ApiError(status, statusText)`; one whose body
parses to a JSON value other than `null` is raised as `ApiError(status,
body.error ?? statusText, body.errorCode)`; but when a non-2xx body parses
to JSON `null`, the `body.error` read throws a raw `TypeError` that
propagates unconverted; a `204 No Content` on a POST resolves to an empty
success value rather than attempting to parse a body; PUT, unlike POST,
has no 204 handling and parses the body of every 2xx response. -/
theorem C4_http_error_normalization (r : HttpResponse) :
    (respOk r = false → r.parsed = .rejects →
        apiGet r = .apiError ⟨r.status, r.statusText, none⟩
      ∧ apiPost r = .apiError ⟨r.status, r.statusText, none⟩
      ∧ apiPut r = .apiError ⟨r.status, r.statusText, none⟩)
  ∧ (respOk r = false → ∀ e c, r.parsed = .resolves (.value e c) →
        apiGet r = .apiError ⟨r.status, e.getD r.statusText, c⟩
      ∧ apiPost r = .apiError ⟨r.status, e.getD r.statusText, c⟩
      ∧ apiPut r = .apiError ⟨r.status, e.getD r.statusText, c⟩)
  ∧ (respOk r = false → r.parsed = .resolves .jsNull →
        apiGet r = .jsException
      ∧ apiPost r = .jsException
      ∧ apiPut r = .jsException)
  ∧ (respOk r = true → r.status = 204 → apiPost r = .ok none)
  ∧ (respOk r = true → r.parsed = .rejects → apiPut r = .jsException) := by
  refine ⟨?_, ?_, ?_, ?_, ?_⟩
  · intro hok hp
    refine ⟨?_, ?_, ?_⟩ <;>
      simp [apiGet, apiPost, apiPut, raiseApiError, hok, hp]
  · intro hok e c hp
    refine ⟨?_, ?_, ?_⟩ <;>
      simp [apiGet, apiPost, apiPut, raiseApiError, hok, hp]
  · intro hok hp
    refine ⟨?_, ?_, ?_⟩ <;>
      simp [apiGet, apiPost, apiPut, raiseApiError, hok, hp]
  · intro hok h204
    simp [apiPost, hok, h204]
  · intro hok hp
    simp [apiPut, hok, hp]

/-- Witness for C4: the amended theorem applied at a concrete 404 with a
parsed error object, a concrete 204 POST, and a concrete 500 whose body is
the JSON text `null`. -/
theorem C4_http_error_normalization_witness :
    apiGet ⟨404, "Not Found", .resolves (.value (some "Nope") (some "E42"))⟩
      = .apiError ⟨404, "Nope", some "E42"⟩
  ∧ apiPost ⟨204, "No Content", .rejects⟩ = .ok none
  ∧ apiPut ⟨500, "Internal Server Error", .resolves .jsNull⟩ = .jsException := by
  refine ⟨?_, ?_, ?_⟩
  · exact ((C4_http_error_normalization
      ⟨404, "Not Found", .resolves (.value (some "Nope") (some "E42"))⟩).2.1
      (by decide) (some "Nope") (some "E42") rfl).1
  · exact (C4_http_error_normalization ⟨204, "No Content", .rejects⟩).2.2.2.1
      (by decide) (by decide)
  · exact ((C4_http_error_normalization
      ⟨500, "Internal Server Error", .resolves .jsNull⟩).2.2.1
      (by decide) rfl).2.2

-- ===========================================================================
-- EXTRACT_PRODUCT URL guard (background service worker,
-- `isValidProductUrl` / `handleExtractProduct`)
-- ===========================================================================

/-- The regex `/^172\.(1[6-9]|2\d|3[01])\./` on a hostname. -/
def is172Private : List Char → Bool
  | '1' :: '7' :: '2' :: '.' :: c1 :: c2 :: '.' :: _ =>
      (c1 = '1' && ('6' ≤ c2 && c2 ≤ '9')) ||
      (c1 = '2' && c2.isDigit) ||
      (c1 = '3' && (c2 = '0' || c2 = '1'))
  | _ => false

/-- `isValidProductUrl` from the background service worker: accept only
http/https URLs whose hostname is not the literal `localhost`,
`127.0.0.1` or `::1` and does not match the private-IPv4 prefixes
`10.`, `172.16-31.`, `192.168.`. -/
def isValidProductUrl (url : String) : Bool :=
  match parseUrl url with
  | none => false
  | some p =>
      if p.protocol ≠ "http:" && p.protocol ≠ "https:" then false
      else if p.hostname = "localhost" || p.hostname = "127.0.0.1"
          || p.hostname = "::1" then false
      else if strStarts p.hostname "10." then false
      else if is172Private p.hostname.data then false
      else if strStarts p.hostname "192.168." then false
      else true

/-- The network behaviour of `handleExtractProduct`: when the guard
rejects, `ApiError(400, 'Invalid product URL')` is thrown before any
outbound call; otherwise the handler proceeds to `POST /estimate/dynamic`
(the optional in-tab content capture is a scripting call, not a network
call).  Returns the list of outbound calls issued and the error, if any. -/
def handleExtractProductNet (productUrl : String) :
    List String × Option ApiError :=
  if isValidProductUrl productUrl then
    (["POST /estimate/dynamic"], none)
  else
    ([], some ⟨400, "Invalid product URL", none⟩)

-- ===========================================================================
-- C6 — EXTRACT_PRODUCT URL guard
-- ===========================================================================

/-- C6 — the claim requires every loopback URL, including IPv6 `::1`, to be
rejected with a status-400 error before any outbound call.  The guard
compares `hostname === '::1'`, but the WHATWG hostname of
`http://[::1]/x` is the bracketed string `"[::1]"`, so the comparison never
fires: the guard accepts the IPv6 loopback URL and the handler issues the
outbound POST.  All other listed guard arms behave as the claim states. -/
theorem C6_url_guard_ipv6_loopback_bug :
    (parseUrl "http://[::1]/x").map ParsedUrl.hostname = some "[::1]"
  ∧ isValidProductUrl "http://[::1]/x" = true
  ∧ (handleExtractProductNet "http://[::1]/x").1 = ["POST /estimate/dynamic"]
  ∧ isValidProductUrl "http://127.0.0.1/x" = false
  ∧ isValidProductUrl "http://localhost/a" = false
  ∧ isValidProductUrl "http://10.0.0.5/a" = false
  ∧ isValidProductUrl "http://172.16.0.1/a" = false
  ∧ isValidProductUrl "http://192.168.1.2/a" = false
  ∧ isValidProductUrl "ftp://shop.example.com/p/1" = false
  ∧ isValidProductUrl "javascript:alert(1)" = false
  ∧ isValidProductUrl "https://shop.example.com/p/1" = true
  ∧ handleExtractProductNet "http://127.0.0.1/x"
      = ([], some ⟨400, "Invalid product URL", none⟩) := by decide

-- ===========================================================================
-- Message router (background service worker, `browser.runtime.onMessage`
-- listener in `defineBackground`)
-- ===========================================================================

/-- The request tags of `ExtensionMessage`, plus the broadcast tag the
listener special-cases before the switch (`AUTH_STATE_CHANGED`) and a
catch-all for unrecognized tags (the switch's `default` arm). -/
inductive MsgTag where
  | CHECK_AUTH
  | FETCH_DOCUMENTS
  | FETCH_DOCUMENT
  | EXTRACT_PRODUCT
  | ADD_ROW_TO_DOCUMENT
  | EXTRACT_PAGE_DATA
  | FETCH_USAGE
  | GET_ACTIVE_TAB
  | LOGOUT
  | AUTH_STATE_CHANGED
  | UNKNOWN (tag : String)
deriving Repr, DecidableEq

/-- How the awaited handler settles: a normal response, a thrown
`ApiError`, or any other thrown exception (`msg` is `err.message` for an
`Error`, or the fixed fallback text). -/
inductive HandlerOutcome where
  | ok (r : ExtensionResponse)
  | throwApi (e : ApiError)
  | throwOther (msg : String)
deriving Repr, DecidableEq

/-- Whether the switch dispatches `tag` to a message handler (as opposed to
the pre-switch broadcast ack or the `default` arm). -/
def dispatchesToHandler : MsgTag → Bool
  | .AUTH_STATE_CHANGED => false
  | .UNKNOWN _ => false
  | _ => true

/-- The `onMessage` listener body: `AUTH_STATE_CHANGED` is acknowledged
with a no-op `LOGOUT_RESULT` before the switch; otherwise the switch runs
the matched handler (its settlement given by `handler`) inside try/catch —
a thrown `ApiError` becomes `{type:'ERROR', status, error, errorCode?}`,
any other exception becomes `{type:'ERROR', status:0, error}`, the
`default` arm answers unknown tags with a generic error.  The result is
the list of `sendResponse` calls the listener makes. -/
def routeResponses (tag : MsgTag) (handler : MsgTag → HandlerOutcome) :
    List ExtensionResponse :=
  if tag = .AUTH_STATE_CHANGED then [.logoutResult]
  else
    match tag with
    | .UNKNOWN s => [.error 0 ("Unknown message type: " ++ s) none]
    | t =>
        match handler t with
        | .ok r => [r]
        | .throwApi e => [.error e.status e.message e.errorCode]
        | .throwOther msg => [.error 0 msg none]

theorem routeResponses_dispatch (tag : MsgTag) (handler : MsgTag → HandlerOutcome)
    (h : dispatchesToHandler tag = true) :
    routeResponses tag handler =
      match handler tag with
      | .ok r => [r]
      | .throwApi e => [.error e.status e.message e.errorCode]
      | .throwOther msg => [.error 0 msg none] := by
  cases tag <;> first
    | rfl
    | simp [dispatchesToHandler] at h

-- ===========================================================================
-- C2 — router error boundary
-- ===========================================================================

/-- C2 — for every incoming message and every outcome of its handler, the
listener responds with exactly one `ExtensionResponse`; a thrown `ApiError`
is converted to `{type:'ERROR', status, error, errorCode?}` and any other
exception to `{type:'ERROR', status:0, error}`; the excluded broadcast tag
is acknowledged and an unknown tag gets a generic error — no path leaves
the caller without a response or with an unconverted exception. -/
theorem C2_router_error_boundary (tag : MsgTag)
    (handler : MsgTag → HandlerOutcome) :
    (routeResponses tag handler).length = 1
  ∧ (dispatchesToHandler tag = true →
      (∀ e, handler tag = .throwApi e →
        routeResponses tag handler = [.error e.status e.message e.errorCode])
      ∧ (∀ m, handler tag = .throwOther m →
        routeResponses tag handler = [.error 0 m none])
      ∧ (∀ r, handler tag = .ok r → routeResponses tag handler = [r]))
  ∧ (tag = .AUTH_STATE_CHANGED → routeResponses tag handler = [.logoutResult])
  ∧ (∀ s, tag = .UNKNOWN s →
      routeResponses tag handler
        = [.error 0 ("Unknown message type: " ++ s) none]) := by
  refine ⟨?_, ?_, ?_, ?_⟩
  · by_cases hd : dispatchesToHandler tag = true
    · rw [routeResponses_dispatch tag handler hd]
      cases handler tag <;> simp
    · cases tag <;> simp [dispatchesToHandler] at hd <;> simp [routeResponses]
  · intro hd
    refine ⟨?_, ?_, ?_⟩
    · intro e he; rw [routeResponses_dispatch tag handler hd, he]
    · intro m hm; rw [routeResponses_dispatch tag handler hd, hm]
    · intro r hr; rw [routeResponses_dispatch tag handler hd, hr]
  · intro h; subst h; rfl
  · intro s h; subst h; rfl

/-- Witness for C2: the theorem applied at `CHECK_AUTH` with a handler that
throws `ApiError(401)`. -/
theorem C2_router_error_boundary_witness :
    routeResponses .CHECK_AUTH (fun _ => .throwApi ⟨401, "Unauthorized", none⟩)
      = [.error 401 "Unauthorized" none] :=
  ((C2_router_error_boundary .CHECK_AUTH
      (fun _ => .throwApi ⟨401, "Unauthorized", none⟩)).2.1 (by decide)).1
    ⟨401, "Unauthorized", none⟩ rfl

-- ===========================================================================
-- Cookie-change watcher (background service worker,
-- `browser.cookies.onChanged` listener)
-- ===========================================================================

/-- `RERUM_BASE_URL` from `lib/constants.ts` (the build-time default;
staging/dev builds substitute another origin through the environment). -/
def RERUM_BASE_URL : String := "https://app.rerum.studio"

/-- `new URL(RERUM_BASE_URL).hostname` with the listener's `catch` arm
returning `''`. -/
def appHostnameOf (baseUrl : String) : String :=
  ((parseUrl baseUrl).map ParsedUrl.hostname).getD ""

/-- A `browser.cookies.onChanged` event: the changed cookie's name and
domain, and whether the change is a removal. -/
structure CookieChangeInfo where
  name : String
  domain : String
  removed : Bool
deriving Repr, DecidableEq

/-- The state the cookie watcher touches: the XSRF-TOKEN cookie in the
jar, the cached auth snapshot in session storage, and the broadcasts
sent so far. -/
structure WatcherState where
  xsrfCookie : Option String
  authState : Option StoredAuthState
  broadcasts : List String
deriving Repr, DecidableEq

/-- `cookie.domain ? cookie.domain.replace(/^\./, '') : ''` — strips one
leading dot (an empty or falsy domain stays empty). -/
def stripLeadingDot (d : String) : String :=
  if strStarts d "." then ⟨d.data.drop 1⟩ else d

/-- The listener's domain match: non-empty target hostname, and the
normalized cookie domain equals it, is a dot-suffix of it, or is empty
while the target host is `localhost`. -/
def domainMatches (appHostname cookieDomain : String) : Bool :=
  let cd := stripLeadingDot cookieDomain
  appHostname ≠ "" &&
    (appHostname = cd || strEnds appHostname ("." ++ cd) ||
      (appHostname = "localhost" && cd = ""))

/-- The `browser.cookies.onChanged` listener: on a `SESSION`-cookie change
matching the target origin it removes the XSRF-TOKEN cookie, clears the
cached auth snapshot when the change is a removal, and broadcasts
`AUTH_STATE_CHANGED`; all other events leave everything unchanged. -/
def onCookieChanged (appHostname : String) (ev : CookieChangeInfo)
    (st : WatcherState) : WatcherState :=
  if ev.name = "SESSION" ∧ domainMatches appHostname ev.domain = true then
    { xsrfCookie := none,
      authState := if ev.removed then none else st.authState,
      broadcasts := st.broadcasts ++ ["AUTH_STATE_CHANGED"] }
  else st

-- ===========================================================================
-- C7 — session-cookie-driven invalidation
-- ===========================================================================

/-- C7 — every `SESSION`-cookie change whose domain matches the target
origin (leading dot stripped; an empty domain matches only a `localhost`
target, provided the target hostname does not itself end in a dot) removes
the XSRF-TOKEN cookie and broadcasts `AUTH_STATE_CHANGED`; a removal
additionally clears the cached auth snapshot, a non-removal leaves it; any
other cookie name or a non-matching domain changes nothing. -/
theorem C7_cookie_watcher (appHostname : String) (ev : CookieChangeInfo)
    (st : WatcherState) :
    (ev.name = "SESSION" → domainMatches appHostname ev.domain = true →
        (onCookieChanged appHostname ev st).xsrfCookie = none
      ∧ (onCookieChanged appHostname ev st).broadcasts
          = st.broadcasts ++ ["AUTH_STATE_CHANGED"]
      ∧ (ev.removed = true → (onCookieChanged appHostname ev st).authState = none)
      ∧ (ev.removed = false →
          (onCookieChanged appHostname ev st).authState = st.authState))
  ∧ (ev.name ≠ "SESSION" ∨ domainMatches appHostname ev.domain = false →
      onCookieChanged appHostname ev st = st)
  ∧ (stripLeadingDot ev.domain = "" → appHostname ≠ "localhost" →
      strEnds appHostname "." = false →
      domainMatches appHostname ev.domain = false)
  ∧ (appHostname = "localhost" → stripLeadingDot ev.domain = "" →
      domainMatches appHostname ev.domain = true) := by
  refine ⟨?_, ?_, ?_, ?_⟩
  · intro hn hm
    refine ⟨?_, ?_, ?_, ?_⟩ <;> simp [onCookieChanged, hn, hm]
    · intro hr; simp [hr]
    · intro hr; simp [hr]
  · intro h
    rcases h with h | h
    · simp [onCookieChanged, h]
    · simp [onCookieChanged, h]
  · intro hcd hnl hdot
    simp only [domainMatches, hcd]
    simp [hnl, hdot]
  · intro hl hcd
    simp [domainMatches, hl, hcd]

/-- Witness for C7: a removal of the `SESSION` cookie for domain
`.rerum.studio` against the production hostname clears the CSRF cookie and
the auth snapshot and broadcasts. -/
theorem C7_cookie_watcher_witness :
    (onCookieChanged (appHostnameOf RERUM_BASE_URL)
        ⟨"SESSION", ".rerum.studio", true⟩
        ⟨some "tok", some ⟨true, none⟩, []⟩).xsrfCookie = none
  ∧ (onCookieChanged (appHostnameOf RERUM_BASE_URL)
        ⟨"SESSION", ".rerum.studio", true⟩
        ⟨some "tok", some ⟨true, none⟩, []⟩).authState = none := by
  have h := (C7_cookie_watcher (appHostnameOf RERUM_BASE_URL)
      ⟨"SESSION", ".rerum.studio", true⟩
      ⟨some "tok", some ⟨true, none⟩, []⟩).1 rfl (by decide)
  exact ⟨h.1, h.2.2.1 rfl⟩

-- ===========================================================================
-- CSRF token manager (background service worker, `ensureCsrfToken` and the
-- module-scoped `csrfFetchInFlight` guard)
-- ===========================================================================

/-- Where a pending `ensureCsrfToken()` caller is suspended.  Each phase
names the `await` the caller is parked on; a scheduling step runs the
synchronous segment from that resumption to the next suspension point,
exactly as the single-threaded event loop interleaves the source:

* `atCookieRead` — parked on the initial `await getCsrfTokenFromCookie()`;
* `atSessionRead` — parked on `await getSessionToken()` *inside* the
  `if (!csrfFetchInFlight)` block: the caller has already observed the
  guard to be null but has not yet assigned it;
* `awaitingFetch pid` — parked on `await csrfFetchInFlight` for promise
  `pid`;
* `finished` — returned. -/
inductive CsrfPhase where
  | atCookieRead
  | atSessionRead
  | awaitingFetch (pid : Nat)
  | finished
deriving Repr, DecidableEq

/-- The process state: the module-scoped `csrfFetchInFlight` guard, a
fresh-promise counter, how many `/csrf` fetches have been issued, how many
of them are still outstanding, and each pending caller's phase.  The
XSRF-TOKEN cookie is absent throughout, matching the claim's premise
(callers start while no token cookie exists, and no fetch has completed
yet to set one). -/
structure CsrfState where
  guard : Option Nat
  nextPid : Nat
  fetchesStarted : Nat
  outstanding : Nat
  callers : List CsrfPhase
deriving Repr, DecidableEq

/-- Resume caller `i` and run it to its next suspension point:

* from `atCookieRead` the cookie is empty, so the caller tests
  `csrfFetchInFlight`: when null it enters the block and immediately
  suspends on `await getSessionToken()`; when set it skips the block and
  awaits the existing promise;
* from `atSessionRead` the caller builds the headers, **issues
  `fetch(RERUM_API_URL + '/csrf')`** and assigns the guard, then awaits
  its own promise.

A caller awaiting a fetch, or finished, is not runnable by scheduling
alone (only a fetch completion would resume it, and completions never
increase the fetch counters). -/
def csrfStep (s : CsrfState) (i : Nat) : CsrfState :=
  match s.callers.get? i with
  | some .atCookieRead =>
      match s.guard with
      | none => { s with callers := s.callers.set i .atSessionRead }
      | some p => { s with callers := s.callers.set i (.awaitingFetch p) }
  | some .atSessionRead =>
      { guard := some s.nextPid,
        nextPid := s.nextPid + 1,
        fetchesStarted := s.fetchesStarted + 1,
        outstanding := s.outstanding + 1,
        callers := s.callers.set i (.awaitingFetch s.nextPid) }
  | _ => s

/-- Run a schedule: a list of caller indices, each resumed in turn. -/
def csrfRun (s : CsrfState) (sched : List Nat) : CsrfState :=
  sched.foldl csrfStep s

/-- Two concurrent callers, both parked on the initial cookie read, no
token cookie, no in-flight guard. -/
def csrfInitTwo : CsrfState := ⟨none, 0, 0, 0, [.atCookieRead, .atCookieRead]⟩

-- ===========================================================================
-- C1 — CSRF fetch de-duplication
-- ===========================================================================

/-- C1 — the de-duplication claim fails on the code: under the reachable
event-loop schedule A, B, A, B (both callers resume from the cookie read
and see a null `csrfFetchInFlight` before either assigns it, because
`await getSessionToken()` suspends *between* the check and the
assignment), two `/csrf` fetches are issued and both are outstanding at
once.  Under the serial schedule A, A, B the guard works and exactly one
fetch is issued — the guard's gap is precisely the suspension point inside
the `if` block. -/
theorem C1_csrf_dedup_double_fetch :
    (csrfRun csrfInitTwo [0, 1, 0, 1]).fetchesStarted = 2
  ∧ (csrfRun csrfInitTwo [0, 1, 0, 1]).outstanding = 2
  ∧ ¬ (csrfRun csrfInitTwo [0, 1, 0, 1]).fetchesStarted ≤ 1
  ∧ (csrfRun csrfInitTwo [0, 0, 1]).fetchesStarted = 1
  ∧ (csrfRun csrfInitTwo [0, 0, 1]).callers
      = [.awaitingFetch 0, .awaitingFetch 0] := by decide
